import Mathlib

/-!
Shallow embedding of the quick-commerce news scraper (`src/scraper.py`,
class `QuickCommerceNewsScraper`) and verification of its specification.

Articles are Python `dict[str, str]` values, embedded as association
lists of string pairs.  Network and HTML-parsing capabilities (the
`requests` session, BeautifulSoup, the NewsAPI endpoint, and
`email.utils.parsedate_to_datetime`) are external collaborators and are
passed in as oracle functions; everything the scraper itself computes is
embedded directly from the source.  Instants are integers (seconds);
`timedelta(hours=h)` is `h * 3600` seconds and `timedelta(days=d)` is
`d * 86400` seconds.
-/

namespace QuickCommerceNewsScraper

/-- A Python `dict[str, str]` with its keys in insertion order. -/
abbrev Article := List (String × String)

/-- `d[k]` as an `Option`: the value at the first matching key. -/
def dictLookup (d : Article) (k : String) : Option String :=
  match d with
  | [] => none
  | (k', v) :: rest => if k' = k then some v else dictLookup rest k

/-- Python `d.get(k, default)`. -/
def dictGet (d : Article) (k : String) (default : String) : String :=
  (dictLookup d k).getD default

/-! ## Text helpers (`clean_text`, substring and split primitives) -/

/-- Python `\s` on ASCII text: space, tab, newline, carriage return,
form feed, vertical tab. -/
def isPyWs (c : Char) : Bool :=
  c == ' ' || c == '\t' || c == '\n' || c == '\r' || c == '\x0b' || c == '\x0c'

/-- Python `str.strip()` on a character list. -/
def stripChars (cs : List Char) : List Char :=
  ((cs.dropWhile isPyWs).reverse.dropWhile isPyWs).reverse

/-- `re.sub(r'\s+', ' ', ·)`: collapse every run of whitespace to a
single space.  The flag records whether the previous character was
whitespace. -/
def collapseWs : Bool → List Char → List Char
  | _, [] => []
  | prevWs, c :: rest =>
    if isPyWs c then
      if prevWs then collapseWs true rest
      else ' ' :: collapseWs true rest
    else c :: collapseWs false rest

/-- `clean_text` (scraper.py:88): empty text maps to `""`; otherwise
strip, then collapse internal whitespace runs to single spaces. -/
def clean_text (text : String) : String :=
  if text = "" then ""
  else String.mk (collapseWs false (stripChars text.toList))

/-- Does `p` start the list `s`? -/
def charsStartWith : List Char → List Char → Bool
  | [], _ => true
  | _ :: _, [] => false
  | a :: as, b :: bs => a == b && charsStartWith as bs

/-- Does `needle` occur somewhere in `hay`?  (`needle in hay` for
Python strings.) -/
def charsContain (needle : List Char) : List Char → Bool
  | [] => charsStartWith needle []
  | c :: rest => charsStartWith needle (c :: rest) || charsContain needle rest

/-- Python `needle in hay` on strings. -/
def pyIn (needle hay : String) : Bool :=
  charsContain needle.toList hay.toList

/-- The characters strictly before the first occurrence of `needle`
(all of them when `needle` does not occur): `hay.split(needle)[0]`. -/
def charsBefore (needle : List Char) : List Char → List Char
  | [] => []
  | c :: rest =>
    if charsStartWith needle (c :: rest) then []
    else c :: charsBefore needle rest

/-- Python `hay.split(needle)[0]` for a non-empty `needle`. -/
def splitBefore (needle hay : String) : String :=
  String.mk (charsBefore needle.toList hay.toList)

/-- Python `str.lower()` on ASCII text: map `A`-`Z` to `a`-`z`. -/
def pyLower (s : String) : String :=
  String.mk (s.toList.map Char.toLower)

/-! ## Timeframe (`__init__` table, `_calculate_timeframe`,
`is_article_in_timeframe`) -/

/-- A `timeframe_options` entry holds either an `'hours'` or a `'days'`
field. -/
inductive Duration where
  | hours (n : Nat)
  | days (n : Nat)
deriving DecidableEq, Repr

/-- The `timeframe_options` table (scraper.py:33-44), keys in source
order. -/
def timeframe_options : List (String × Duration) :=
  [("6h", .hours 6), ("12h", .hours 12), ("24h", .hours 24),
   ("2d", .days 2), ("3d", .days 3), ("7d", .days 7),
   ("14d", .days 14), ("30d", .days 30), ("60d", .days 60),
   ("90d", .days 90)]

/-- The `timedelta` of a table entry, in seconds. -/
def durationSeconds : Duration → Int
  | .hours n => (n : Int) * 3600
  | .days n => (n : Int) * 86400

/-- `_calculate_timeframe` (scraper.py:57-72): `end_date` is `now`; an
unknown token is replaced by `'7d'` (with a logged warning); the start
is `end_date` minus the configured duration.  Returns
`(start_date, end_date)`. -/
def calculate_timeframe (timeframe : String) (now : Int) : Int × Int :=
  let tf := if (timeframe_options.lookup timeframe).isNone then "7d" else timeframe
  let cfg := (timeframe_options.lookup tf).getD (Duration.days 7)
  (now - durationSeconds cfg, now)

/-- A Python `datetime`: a wall-clock reading (seconds) plus an optional
timezone (`tzinfo`).  Comparison of naive datetimes compares the
wall-clock reading; `replace(tzinfo=None)` drops the timezone and keeps
the wall-clock reading. -/
structure PyDatetime where
  wallclock : Int
  tzinfo : Option Int
deriving DecidableEq, Repr

/-- `d.replace(tzinfo=None)`. -/
def replaceTzNone (d : PyDatetime) : PyDatetime :=
  { d with tzinfo := none }

/-- `is_article_in_timeframe` (scraper.py:74-86).  `parsedate` is the
oracle for `email.utils.parsedate_to_datetime`; `none` is a raised
parse error, answered `True` by the bare `except`.  An empty string is
falsy and short-circuits to `True`.  A timezone-aware result is
stripped to naive before the `>= start_date` comparison. -/
def is_article_in_timeframe (parsedate : String → Option PyDatetime)
    (start_date : Int) (pub_date_str : String) : Bool :=
  if pub_date_str = "" then true
  else
    match parsedate pub_date_str with
    | none => true
    | some pub0 =>
      let pub := if pub0.tzinfo.isSome then replaceTzNone pub0 else pub0
      decide (pub.wallclock ≥ start_date)

/-! ## Deduplication (`remove_duplicates`) -/

/-- The loop of `remove_duplicates` (scraper.py:308-319): `seen` is the
`seen_urls` set; the key is `article.get('url', '')`. -/
def removeDupsAux (seen : List String) : List Article → List Article
  | [] => []
  | a :: rest =>
    let url := dictGet a "url" ""
    if url ∈ seen then removeDupsAux seen rest
    else a :: removeDupsAux (url :: seen) rest

/-- `remove_duplicates` (scraper.py:308-319): single pass, order
preserving, first occurrence of each `url` key wins. -/
def remove_duplicates (articles : List Article) : List Article :=
  removeDupsAux [] articles

/-- The `seen_urls` set after the `remove_duplicates` loop has
processed a list. -/
def seenAfter (seen : List String) : List Article → List String
  | [] => seen
  | a :: rest =>
    let url := dictGet a "url" ""
    if url ∈ seen then seenAfter seen rest
    else seenAfter (url :: seen) rest

/-! ## Content extraction (`extract_content_from_url`) -/

/-- Redirect hosts that short-circuit extraction (scraper.py:99). -/
def redirect_domains : List String :=
  ["news.google.com", "google.com/url", "t.co"]

/-- The ordered Tier-1 selector list (scraper.py:122-126). -/
def article_selectors : List String :=
  ["article", ".article-content", ".entry-content", ".post-content",
   ".article-body", ".story-body", ".content", ".main-content",
   "[data-module=\"ArticleBody\"]", ".story-text", ".article-text"]

/-- Boilerplate markers excluded in Tier 2 (scraper.py:145-147). -/
def unwanted_markers : List String :=
  ["subscribe", "newsletter", "advertisement", "cookie", "privacy"]

/-- The parsed HTML document after the unwanted-element removal pass
(scraper.py:112-116), abstracted over BeautifulSoup: `selectOne s`
gives, when `select_one(s)` finds an element, the `get_text()` of each
`p`/`div` inside it in document order; `allParas` gives the
`get_text()` of every `p` in the document. -/
structure Soup where
  selectOne : String → Option (List String)
  allParas : List String

/-- The outcome of fetching and parsing a URL: a parsed document, or a
raised transport/parse exception with its description `str(e)`. -/
inductive FetchResult where
  | ok (soup : Soup)
  | error (msg : String)

/-- The Tier-1 body of `extract_content_from_url` (scraper.py:128-137):
clean each paragraph's text and keep those longer than 50
characters. -/
def tier1Frags (paras : List String) : List String :=
  (paras.map clean_text).filter (fun t => t.length > 50)

/-- The Tier-1 selector loop: probe selectors in order; stop at the
first one that both matches an element and contributes at least one
fragment (`if content_text: break`). -/
def tier1Loop (selectOne : String → Option (List String)) :
    List String → List String
  | [] => []
  | sel :: rest =>
    match selectOne sel with
    | none => tier1Loop selectOne rest
    | some paras =>
      let frags := tier1Frags paras
      if frags.isEmpty then tier1Loop selectOne rest else frags

/-- Tier 2 (scraper.py:140-148): all paragraphs, cleaned, longer than
50 characters and free of boilerplate markers (checked on the
lower-cased text). -/
def tier2Frags (allParas : List String) : List String :=
  (allParas.map clean_text).filter
    (fun t => t.length > 50 && !(unwanted_markers.any (fun u => pyIn u (pyLower t))))

/-- The `content_text` list at scraper.py:151: Tier 1, falling back to
Tier 2 when Tier 1 collected nothing. -/
def surviving_fragments (soup : Soup) : List String :=
  let t1 := tier1Loop soup.selectOne article_selectors
  if t1.isEmpty then tier2Frags soup.allParas else t1

/-- `extract_content_from_url` (scraper.py:95-158).  `fetch` is the
oracle for `session.get` plus BeautifulSoup parsing; a raised exception
is caught and turned into an error placeholder. -/
def extract_content_from_url (fetch : String → FetchResult) (url : String) : String :=
  if redirect_domains.any (fun d => pyIn d url) then
    "Redirect URL - content extraction skipped"
  else
    match fetch url with
    | .error e => "Error extracting content: " ++ e
    | .ok soup =>
      let content_text := surviving_fragments soup
      if !content_text.isEmpty then
        String.intercalate "\n\n" (content_text.take 15)
      else
        "Content extraction failed - unable to locate article text"

/-! ## RSS harvester (`search_direct_rss_feeds`) -/

/-- The keyword vocabulary (scraper.py:49-55). -/
def keywords : List String :=
  ["quick commerce", "q-commerce", "quick-commerce", "qcommerce",
   "blinkit", "zepto", "swiggy instamart", "instamart",
   "amazon now", "flipkart minutes", "bigbasket now",
   "dunzo", "grofers", "ultra fast delivery", "10 minute delivery",
   "instant delivery", "rapid delivery", "dark store", "dark stores"]

/-- The `rss_sources` table (scraper.py:165-173), in source order. -/
def rss_sources : List (String × String) :=
  [("Economic Times", "https://economictimes.indiatimes.com/rssfeedsdefault.cms"),
   ("Business Standard", "https://www.business-standard.com/rss/latest.rss"),
   ("LiveMint", "https://www.livemint.com/rss/companies"),
   ("Financial Express", "https://www.financialexpress.com/feed/"),
   ("YourStory", "https://yourstory.com/feed"),
   ("Inc42", "https://inc42.com/feed/"),
   ("MoneyControl", "https://www.moneycontrol.com/rss/business.xml")]

/-- One `<item>` of a fetched feed: the `get_text()` of its
title/link/pubDate/description children, when present. -/
structure RssItem where
  title : Option String
  link : Option String
  pubDate : Option String
  description : Option String

/-- The per-item body of the `search_direct_rss_feeds` loop
(scraper.py:185-214): items missing title or link are skipped, then the
timeframe filter, then the keyword filter on the title, then content
extraction; survivors become article dicts in source key order. -/
def process_rss_item (parsedate : String → Option PyDatetime) (start_date : Int)
    (htmlFetch : String → FetchResult) (source_name : String)
    (item : RssItem) : Option Article :=
  match item.title, item.link with
  | some titleText, some linkText =>
    let title := clean_text titleText
    let article_url := linkText
    let pub_date := item.pubDate.getD ""
    if !is_article_in_timeframe parsedate start_date pub_date then none
    else if keywords.any (fun k => pyIn (pyLower k) (pyLower title)) then
      some [("title", title),
            ("url", article_url),
            ("source", source_name),
            ("published_date", pub_date),
            ("description",
              match item.description with
              | some d => clean_text d
              | none => ""),
            ("content", extract_content_from_url htmlFetch article_url)]
    else none
  | _, _ => none

/-- `search_direct_rss_feeds` (scraper.py:160-221).  `feedFetch` is the
oracle for fetching and parsing one feed URL; a raised exception for a
source is caught and that source contributes nothing.  At most the
first 30 items of each feed are examined. -/
def search_direct_rss_feeds (parsedate : String → Option PyDatetime)
    (start_date : Int) (feedFetch : String → Except String (List RssItem))
    (htmlFetch : String → FetchResult) : List Article :=
  (rss_sources.map (fun src =>
    match feedFetch src.2 with
    | .error _ => []
    | .ok items =>
      (items.take 30).filterMap
        (process_rss_item parsedate start_date htmlFetch src.1))).flatten

/-! ## API harvester (`search_news_api`) -/

/-- One element of the NewsAPI response's `articles` list: the JSON
fields the code reads, each possibly absent. -/
structure ApiArticle where
  url : Option String
  content : Option String
  title : Option String
  description : Option String
  publishedAt : Option String
  sourceName : Option String

/-- Python truthiness of `article.get(k)` for a string field: present
and non-empty. -/
def pyTruthy : Option String → Bool
  | none => false
  | some s => s ≠ ""

/-- The per-result body of the `search_news_api` loop
(scraper.py:252-268): results missing a truthy `url` or `content` are
skipped; content is cut at the first `'[+'` truncation marker; a falsy
(empty) final content string is replaced by the placeholder. -/
def api_article_data (a : ApiArticle) : Option Article :=
  if pyTruthy a.url && pyTruthy a.content then
    let content := a.content.getD ""
    let content := if pyIn "[+" content then splitBefore "[+" content else content
    some [("title", clean_text (a.title.getD "")),
          ("url", a.url.getD ""),
          ("source", a.sourceName.getD "NewsAPI"),
          ("published_date", a.publishedAt.getD ""),
          ("description", clean_text (a.description.getD "")),
          ("content", if content = "" then "NewsAPI content not available" else content)]
  else none

/-- `search_news_api` (scraper.py:223-273).  `api_key` is
`os.getenv('NEWS_API_KEY')`; its absence skips the API.  `apiFetch` is
the oracle for the HTTP request plus `response.json()`, keyed by the
query; a raised exception is caught and yields the articles collected
so far (none, since the request precedes the loop). -/
def search_news_api (api_key : Option String)
    (apiFetch : String → Except String (List ApiArticle))
    (query : String) : List Article :=
  match api_key with
  | none => []
  | some _ =>
    match apiFetch query with
    | .error _ => []
    | .ok results => results.filterMap api_article_data

/-! ## Aggregator (`scrape_all_news`) -/

/-- The NewsAPI query keywords (scraper.py:290), in configuration
order. -/
def api_keywords : List String :=
  ["quick commerce india", "blinkit", "zepto", "swiggy instamart"]

/-- `scrape_all_news` (scraper.py:275-306): RSS results first, then the
API results keyword by keyword (a per-keyword exception is caught
inside `search_news_api`'s model), then `remove_duplicates`. -/
def scrape_all_news (parsedate : String → Option PyDatetime) (start_date : Int)
    (feedFetch : String → Except String (List RssItem))
    (htmlFetch : String → FetchResult) (api_key : Option String)
    (apiFetch : String → Except String (List ApiArticle)) : List Article :=
  let rss_articles := search_direct_rss_feeds parsedate start_date feedFetch htmlFetch
  let api_articles := (api_keywords.map (search_news_api api_key apiFetch)).flatten
  remove_duplicates (rss_articles ++ api_articles)

/-! ## Concrete oracle instances used for the end-to-end scenario and
for closed witnesses -/

/-- A parsed document whose `article` selector matches one long
paragraph. -/
def exampleSoup : Soup :=
  ⟨fun s =>
    if s = "article" then
      some ["This paragraph of article body text runs well past the fifty character cutoff."]
    else none,
   []⟩

/-- A fetch oracle that always yields `exampleSoup`. -/
def exampleFetch : String → FetchResult := fun _ => .ok exampleSoup

/-- A NewsAPI result whose content carries a truncation marker with
text before it. -/
def exampleApiArticle : ApiArticle :=
  ⟨some "https://ex.com/a", some "Short text[+120 chars]", some "Title",
   some "Desc", some "2025-01-01", some "SrcName"⟩

/-- A NewsAPI oracle that always yields `exampleApiArticle`. -/
def exampleApiFetch : String → Except String (List ApiArticle) :=
  fun _ => .ok [exampleApiArticle]

/-- Date-parse oracle of the end-to-end scenario: every date string is
malformed (feed items below carry no `pubDate` anyway). -/
def scenarioParsedate : String → Option PyDatetime := fun _ => none

/-- Feed oracle of the end-to-end scenario: the first feed source
returns two keyword-matching items; every other source is down. -/
def scenarioFeedFetch : String → Except String (List RssItem) := fun u =>
  if u = "https://economictimes.indiatimes.com/rssfeedsdefault.cms" then
    .ok [⟨some "Blinkit raises new funding", some "https://ex.com/a1", none, none⟩,
         ⟨some "Zepto opens dark stores", some "https://ex.com/a2", none, none⟩]
  else .error "connection refused"

/-- Article-page oracle of the end-to-end scenario: every page fetch
fails, so content is the diagnostic placeholder. -/
def scenarioHtmlFetch : String → FetchResult := fun _ => .error "timeout"

/-- NewsAPI oracle of the end-to-end scenario: the `blinkit` query
returns one result sharing its URL with the first feed item. -/
def scenarioApiFetch : String → Except String (List ApiArticle) := fun q =>
  if q = "blinkit" then
    .ok [⟨some "https://ex.com/a1", some "API-provided body text",
          some "Blinkit raises new funding", some "desc",
          some "2025-09-30", some "NewsAPI Source"⟩]
  else .ok []

/-- The first feed article the scenario harvests. -/
def scenarioFeedArticle1 : Article :=
  [("title", "Blinkit raises new funding"), ("url", "https://ex.com/a1"),
   ("source", "Economic Times"), ("published_date", ""), ("description", ""),
   ("content", "Error extracting content: timeout")]

/-- The second feed article the scenario harvests. -/
def scenarioFeedArticle2 : Article :=
  [("title", "Zepto opens dark stores"), ("url", "https://ex.com/a2"),
   ("source", "Economic Times"), ("published_date", ""), ("description", ""),
   ("content", "Error extracting content: timeout")]

/-! ## Helper lemmas about the deduplication loop -/

/-- The articles with an empty dedup key surviving the loop: none when
`""` is already seen, otherwise exactly the first empty-keyed input. -/
theorem removeDupsAux_filterEmpty (L : List Article) : ∀ seen : List String,
    (removeDupsAux seen L).filter (fun a => dictGet a "url" "" == "") =
      if "" ∈ seen then [] else (L.filter (fun a => dictGet a "url" "" == "")).take 1 := by
  induction L with
  | nil =>
    intro seen
    by_cases h : ("" : String) ∈ seen <;> simp [removeDupsAux, h]
  | cons a rest ih =>
    intro seen
    by_cases hu : dictGet a "url" "" = ""
    · by_cases hs : ("" : String) ∈ seen
      · rw [show (a :: rest).filter (fun a => dictGet a "url" "" == "") =
              a :: rest.filter (fun a => dictGet a "url" "" == "") by simp [hu]]
        simp [removeDupsAux, hu, hs, ih seen]
      · simp [removeDupsAux, hu, hs, ih ("" :: seen)]
    · by_cases hs : dictGet a "url" "" ∈ seen
      · have : ("" : String) ∈ seen ↔ ("" : String) ∈ seen := Iff.rfl
        simp [removeDupsAux, hs, ih seen, hu]
      · have hmem : (("" : String) ∈ dictGet a "url" "" :: seen) ↔ ("" : String) ∈ seen := by
          constructor
          · intro h
            rcases List.mem_cons.mp h with h | h
            · exact absurd h.symm hu
            · exact h
          · exact fun h => List.mem_cons_of_mem _ h
        simp [removeDupsAux, hs, hu, ih (dictGet a "url" "" :: seen), hmem]

/-- The loop's output keys are pairwise distinct and disjoint from
`seen`. -/
theorem removeDupsAux_nodup_keys (L : List Article) : ∀ seen : List String,
    ((removeDupsAux seen L).map (fun a => dictGet a "url" "")).Nodup ∧
      ∀ a ∈ removeDupsAux seen L, dictGet a "url" "" ∉ seen := by
  induction L with
  | nil => intro seen; simp [removeDupsAux]
  | cons a rest ih =>
    intro seen
    by_cases h : dictGet a "url" "" ∈ seen
    · simpa [removeDupsAux, h] using ih seen
    · obtain ⟨h1, h2⟩ := ih (dictGet a "url" "" :: seen)
      refine ⟨?_, ?_⟩
      · simp only [removeDupsAux, h, if_false, List.map_cons, List.nodup_cons]
        exact ⟨fun hmem => by
          obtain ⟨b, hb, hbu⟩ := List.mem_map.mp hmem
          exact (h2 b hb) (by simp [hbu]), h1⟩
      · intro b hb
        simp only [removeDupsAux, h, if_false, List.mem_cons] at hb
        rcases hb with rfl | hb
        · exact h
        · exact fun hc => (h2 b hb) (List.mem_cons_of_mem _ hc)

/-- A list whose keys are pairwise distinct and unseen passes the loop
unchanged. -/
theorem removeDupsAux_id (L : List Article) : ∀ seen : List String,
    (∀ a ∈ L, dictGet a "url" "" ∉ seen) →
    (L.map (fun a => dictGet a "url" "")).Nodup →
    removeDupsAux seen L = L := by
  induction L with
  | nil => intro seen _ _; rfl
  | cons a rest ih =>
    intro seen hseen hnodup
    have ha : dictGet a "url" "" ∉ seen := hseen a (List.mem_cons_self a rest)
    simp only [List.map_cons, List.nodup_cons] at hnodup
    have : removeDupsAux (dictGet a "url" "" :: seen) rest = rest := by
      refine ih _ ?_ hnodup.2
      intro b hb hbmem
      rcases List.mem_cons.mp hbmem with heq | hmem
      · exact hnodup.1 (heq ▸ List.mem_map_of_mem (fun a => dictGet a "url" "") hb)
      · exact hseen b (List.mem_cons_of_mem _ hb) hmem
    simp [removeDupsAux, ha, this]

/-- Splitting the loop across a concatenation: the second half runs
with the `seen_urls` set produced by the first. -/
theorem removeDupsAux_append (l1 l2 : List Article) : ∀ seen : List String,
    removeDupsAux seen (l1 ++ l2) =
      removeDupsAux seen l1 ++ removeDupsAux (seenAfter seen l1) l2 := by
  induction l1 with
  | nil => intro seen; simp [removeDupsAux, seenAfter]
  | cons a rest ih =>
    intro seen
    by_cases h : dictGet a "url" "" ∈ seen <;>
      simp [removeDupsAux, seenAfter, h, ih]

/-- Membership in the accumulated `seen_urls` set. -/
theorem mem_seenAfter (L : List Article) : ∀ (seen : List String) (u : String),
    u ∈ seenAfter seen L ↔ u ∈ seen ∨ u ∈ L.map (fun a => dictGet a "url" "") := by
  induction L with
  | nil => intro seen u; simp [seenAfter]
  | cons a rest ih =>
    intro seen u
    by_cases h : dictGet a "url" "" ∈ seen
    · simp only [seenAfter, h, if_true, ih, List.map_cons, List.mem_cons]
      constructor
      · tauto
      · rintro (hu | rfl | hu) <;> tauto
    · simp only [seenAfter, h, if_false, ih, List.map_cons, List.mem_cons]
      tauto

/-- Articles whose key is already in `seen` can be filtered away
without changing the loop's output. -/
theorem removeDupsAux_drop_seen (l : List Article) : ∀ (seen : List String)
    (urls : List String), (∀ u ∈ urls, u ∈ seen) →
    removeDupsAux seen (l.filter (fun b => !(urls.contains (dictGet b "url" "")))) =
      removeDupsAux seen l := by
  induction l with
  | nil => intro seen urls _; rfl
  | cons a rest ih =>
    intro seen urls hsub
    by_cases hmem : dictGet a "url" "" ∈ urls
    · have hseen : dictGet a "url" "" ∈ seen := hsub _ hmem
      have : (a :: rest).filter (fun b => !(urls.contains (dictGet b "url" ""))) =
          rest.filter (fun b => !(urls.contains (dictGet b "url" ""))) := by
        simp [List.filter, hmem]
      rw [this, ih seen urls hsub]
      simp [removeDupsAux, hseen]
    · have : (a :: rest).filter (fun b => !(urls.contains (dictGet b "url" ""))) =
          a :: rest.filter (fun b => !(urls.contains (dictGet b "url" ""))) := by
        simp [List.filter, hmem]
      rw [this]
      by_cases hseen : dictGet a "url" "" ∈ seen
      · simp only [removeDupsAux, hseen, if_true]
        exact ih seen urls hsub
      · simp only [removeDupsAux, hseen, if_false]
        rw [ih (dictGet a "url" "" :: seen) urls
          (fun u hu => List.mem_cons_of_mem _ (hsub u hu))]

/-! ## Claim theorems -/

/-- C1 (counterexample): on an input of two articles, both missing the
`url` field, `remove_duplicates` keeps only the first — the second does
not appear in the output, refuting the claim that every empty/missing-URL
article appears, each treated as distinct. -/
theorem remove_duplicates_missing_url_collapse :
    remove_duplicates [[("title", "A")], [("title", "B")]] = [[("title", "A")]] ∧
      [("title", "B")] ∉ remove_duplicates [[("title", "A")], [("title", "B")]] := by
  constructor
  · rfl
  · decide

/-- C1 (amended): articles with an empty or missing URL all share the
deduplication key `""`, so they ARE deduplicated against each other:
among the empty/missing-URL articles of any input, exactly the first
survives in the output and every later one is dropped. -/
theorem remove_duplicates_empty_url_unique (L : List Article) :
    (remove_duplicates L).filter (fun a => dictGet a "url" "" == "") =
      (L.filter (fun a => dictGet a "url" "" == "")).take 1 := by
  simpa using removeDupsAux_filterEmpty L []

/-- C4: deduplication is idempotent — `remove_duplicates` applied to its
own output returns it unchanged — and on
`[A(url=u1), B(url=u2), C(url=u1)]` with `u1 ≠ u2` it returns `[A, B]`,
dropping `C` and keeping first occurrences in order. -/
theorem remove_duplicates_idempotent :
    (∀ L : List Article,
        remove_duplicates (remove_duplicates L) = remove_duplicates L) ∧
      ∀ u1 u2 : String, u1 ≠ u2 →
        remove_duplicates
            [[("title", "A"), ("url", u1)], [("title", "B"), ("url", u2)],
              [("title", "C"), ("url", u1)]] =
          [[("title", "A"), ("url", u1)], [("title", "B"), ("url", u2)]] := by
  constructor
  · intro L
    obtain ⟨h1, _⟩ := removeDupsAux_nodup_keys L []
    exact removeDupsAux_id _ [] (by simp) h1
  · intro u1 u2 h
    simp [remove_duplicates, removeDupsAux, dictGet, dictLookup, h, Ne.symm h]

/-- Witness for C4 at `u1 = "u1"`, `u2 = "u2"`. -/
theorem remove_duplicates_idempotent_witness :
    remove_duplicates
        [[("title", "A"), ("url", "u1")], [("title", "B"), ("url", "u2")],
          [("title", "C"), ("url", "u1")]] =
      [[("title", "A"), ("url", "u1")], [("title", "B"), ("url", "u2")]] :=
  remove_duplicates_idempotent.2 "u1" "u2" (by decide)

/-- C5: for every token of the `timeframe_options` table, the window
computed by `_calculate_timeframe` has `start < end` and
`end - start` is exactly the configured duration of that token. -/
theorem calculate_timeframe_table (now : Int) (tok : String) (d : Duration)
    (h : (tok, d) ∈ timeframe_options) :
    (calculate_timeframe tok now).1 < (calculate_timeframe tok now).2 ∧
      (calculate_timeframe tok now).2 - (calculate_timeframe tok now).1 =
        durationSeconds d := by
  simp only [timeframe_options] at h
  fin_cases h <;>
    simp [calculate_timeframe, timeframe_options, durationSeconds, List.lookup]

/-- Witness for C5 at token `"24h"`: a window of exactly 24 hours. -/
theorem calculate_timeframe_table_witness :
    (calculate_timeframe "24h" 0).1 < (calculate_timeframe "24h" 0).2 ∧
      (calculate_timeframe "24h" 0).2 - (calculate_timeframe "24h" 0).1 =
        durationSeconds (Duration.hours 24) :=
  calculate_timeframe_table 0 "24h" (Duration.hours 24) (by decide)

/-- C6: a token outside the table is substituted by the default `'7d'`:
`_calculate_timeframe` returns exactly the window of `'7d'` for the same
`now`, and (being a total function) raises no exception. -/
theorem calculate_timeframe_unknown (tok : String) (now : Int)
    (h : timeframe_options.lookup tok = none) :
    calculate_timeframe tok now = calculate_timeframe "7d" now := by
  have h7 : timeframe_options.lookup "7d" = some (Duration.days 7) := by decide
  simp [calculate_timeframe, h, h7]

/-- Witness for C6 at the unknown token `"1y"`. -/
theorem calculate_timeframe_unknown_witness :
    calculate_timeframe "1y" 0 = calculate_timeframe "7d" 0 :=
  calculate_timeframe_unknown "1y" 0 (by decide)

/-- C2: the timeframe check is permissive: an empty date string yields
`true`; a string the date parser rejects yields `true`; a string parsing
to an instant (stripped to naive when timezone-aware) yields `true`
exactly when that instant is at or after `start`, hence `false` exactly
when it is strictly before `start`.  The embedding is a total function:
no exception escapes. -/
theorem is_article_in_timeframe_spec (parsedate : String → Option PyDatetime)
    (start_date : Int) (s : String) :
    (s = "" → is_article_in_timeframe parsedate start_date s = true) ∧
      (parsedate s = none → is_article_in_timeframe parsedate start_date s = true) ∧
      ∀ d : PyDatetime, s ≠ "" → parsedate s = some d →
        (is_article_in_timeframe parsedate start_date s = true ↔
          start_date ≤ (if d.tzinfo.isSome then replaceTzNone d else d).wallclock) := by
  refine ⟨fun h => by simp [is_article_in_timeframe, h], fun h => ?_, fun d hs hp => ?_⟩
  · by_cases h0 : s = "" <;> simp [is_article_in_timeframe, h0, h]
  · simp [is_article_in_timeframe, hs, hp, ge_iff_le]

/-- Witness for C2: a parsed, timezone-aware instant strictly before
`start` is rejected. -/
theorem is_article_in_timeframe_spec_witness :
    is_article_in_timeframe (fun _ => some ⟨5, some 0⟩) 10
      "Mon, 01 Jan 2001 00:00:05 +0000" = false := by
  have h := (is_article_in_timeframe_spec (fun _ => some ⟨5, some 0⟩) 10
    "Mon, 01 Jan 2001 00:00:05 +0000").2.2 ⟨5, some 0⟩ (by decide) rfl
  simp [replaceTzNone] at h
  exact h

/-- C10: the timeframe check never consults the window's end: for a
successfully parsed date the verdict is `start ≤ instant`, and in
particular an instant strictly after any `end_date` — arbitrarily far in
the future — is still accepted whenever it is at or after `start`. -/
theorem is_article_in_timeframe_ignores_end (parsedate : String → Option PyDatetime)
    (start_date end_date : Int) (s : String) (d : PyDatetime)
    (hs : s ≠ "") (hp : parsedate s = some d) :
    (is_article_in_timeframe parsedate start_date s = true ↔
        start_date ≤ (if d.tzinfo.isSome then replaceTzNone d else d).wallclock) ∧
      (start_date ≤ (if d.tzinfo.isSome then replaceTzNone d else d).wallclock →
        end_date < (if d.tzinfo.isSome then replaceTzNone d else d).wallclock →
        is_article_in_timeframe parsedate start_date s = true) := by
  have h := (is_article_in_timeframe_spec parsedate start_date s).2.2 d hs hp
  exact ⟨h, fun h1 _ => h.mpr h1⟩

/-- Witness for C10: an article one million seconds after a window
ending at 20 is still in-window. -/
theorem is_article_in_timeframe_ignores_end_witness :
    is_article_in_timeframe (fun _ => some ⟨1000000, none⟩) 10
      "Sat, 12 Jan 2030 00:00:00 GMT" = true := by
  have h := is_article_in_timeframe_ignores_end (fun _ => some ⟨1000000, none⟩)
    10 20 "Sat, 12 Jan 2030 00:00:00 GMT" ⟨1000000, none⟩ (by decide) rfl
  exact h.2 (by decide) (by decide)

/-! ## Helper lemmas about the harvesters -/

/-- Every article dict built by the RSS item loop carries a `content`
entry. -/
theorem process_rss_item_content (parsedate : String → Option PyDatetime)
    (start_date : Int) (htmlFetch : String → FetchResult) (source_name : String)
    (item : RssItem) (a : Article)
    (h : process_rss_item parsedate start_date htmlFetch source_name item = some a) :
    (dictLookup a "content").isSome = true := by
  unfold process_rss_item at h
  rcases item with ⟨t, l, p, ds⟩
  cases t <;> cases l <;> simp only at h
  · exact absurd h (by simp)
  · exact absurd h (by simp)
  · exact absurd h (by simp)
  · split_ifs at h with h1 h2
    · obtain rfl := Option.some.inj h
      simp [dictLookup]

/-- Every article dict built by the NewsAPI result loop carries a
`content` entry. -/
theorem api_article_data_content (a : ApiArticle) (d : Article)
    (h : api_article_data a = some d) :
    (dictLookup d "content").isSome = true := by
  unfold api_article_data at h
  split_ifs at h with h1
  obtain rfl := Option.some.inj h
  simp [dictLookup]

/-- C7: the content extractor is total (it always returns a string):
off the redirect short-circuit, a raised transport/parse exception is
converted into a placeholder embedding the error description; a fetch
whose tiered extraction leaves at least one fragment yields the first
15 fragments joined by blank lines; a fetch whose tiered extraction
leaves nothing yields the fixed extraction-failure placeholder. -/
theorem extract_content_from_url_cases (fetch : String → FetchResult) (url : String)
    (hred : redirect_domains.any (fun d => pyIn d url) = false) :
    (∀ e, fetch url = .error e →
        extract_content_from_url fetch url = "Error extracting content: " ++ e) ∧
      ∀ soup, fetch url = .ok soup →
        (surviving_fragments soup ≠ [] →
          extract_content_from_url fetch url =
            String.intercalate "\n\n" ((surviving_fragments soup).take 15)) ∧
        (surviving_fragments soup = [] →
          extract_content_from_url fetch url =
            "Content extraction failed - unable to locate article text") := by
  refine ⟨fun e he => ?_, fun soup hs => ⟨fun hne => ?_, fun hemp => ?_⟩⟩
  · simp [extract_content_from_url, hred, he]
  · simp [extract_content_from_url, hred, hs, hne]
  · simp [extract_content_from_url, hred, hs, hemp]

/-- Witness for C7: a page with one long Tier-1 paragraph yields the
joined surviving fragments. -/
theorem extract_content_from_url_cases_witness :
    extract_content_from_url exampleFetch "https://ex.com/story" =
      String.intercalate "\n\n" ((surviving_fragments exampleSoup).take 15) :=
  ((extract_content_from_url_cases exampleFetch "https://ex.com/story"
    (by decide)).2 exampleSoup rfl).1 (by decide)

/-- C8 (counterexample): a NewsAPI result whose content starts with the
truncation marker does not get the (empty) text preceding the marker
stored; the falsy-content fallback stores the placeholder
`"NewsAPI content not available"` instead. -/
theorem search_news_api_truncation_counterexample :
    (search_news_api (some "key")
        (fun _ => Except.ok [⟨some "https://ex.com/a", some "[+120 chars]",
          some "Title", some "Desc", some "2025-01-01", some "SrcName"⟩]) "q").map
        (fun d => dictGet d "content" "") = ["NewsAPI content not available"] ∧
      splitBefore "[+" "[+120 chars]" = "" ∧
      ("NewsAPI content not available" : String) ≠ "" := by
  refine ⟨rfl, rfl, by decide⟩

/-- C8 (amended): for every NewsAPI result with a truthy URL and a
truthy content string containing the truncation marker `'[+'`, the
stored content is the text strictly preceding the first marker
occurrence — unless that preceding text is empty (marker at position
0), in which case the placeholder `"NewsAPI content not available"` is
stored. -/
theorem search_news_api_truncation (key query : String)
    (apiFetch : String → Except String (List ApiArticle))
    (results : List ApiArticle) (a : ApiArticle)
    (hf : apiFetch query = Except.ok results) (ha : a ∈ results)
    (hu : pyTruthy a.url = true) (hc : pyTruthy a.content = true)
    (hm : pyIn "[+" (a.content.getD "") = true) :
    ∃ d ∈ search_news_api (some key) apiFetch query,
      api_article_data a = some d ∧
        dictGet d "content" "" =
          (if splitBefore "[+" (a.content.getD "") = ""
            then "NewsAPI content not available"
            else splitBefore "[+" (a.content.getD "")) := by
  have hd : api_article_data a =
      some [("title", clean_text (a.title.getD "")),
            ("url", a.url.getD ""),
            ("source", a.sourceName.getD "NewsAPI"),
            ("published_date", a.publishedAt.getD ""),
            ("description", clean_text (a.description.getD "")),
            ("content",
              if splitBefore "[+" (a.content.getD "") = ""
                then "NewsAPI content not available"
                else splitBefore "[+" (a.content.getD ""))] := by
    simp [api_article_data, hu, hc, hm]
  refine ⟨_, ?_, hd, ?_⟩
  · simp only [search_news_api, hf]
    exact List.mem_filterMap.mpr ⟨a, ha, hd⟩
  · simp [dictGet, dictLookup]

/-- Witness for C8 (amended) on `exampleApiArticle`, whose content is
`"Short text[+120 chars]"`. -/
theorem search_news_api_truncation_witness :
    ∃ d ∈ search_news_api (some "key") exampleApiFetch "blinkit",
      api_article_data exampleApiArticle = some d ∧
        dictGet d "content" "" =
          (if splitBefore "[+" (exampleApiArticle.content.getD "") = ""
            then "NewsAPI content not available"
            else splitBefore "[+" (exampleApiArticle.content.getD "")) :=
  search_news_api_truncation "key" "blinkit" exampleApiFetch [exampleApiArticle]
    exampleApiArticle rfl (List.mem_singleton.mpr rfl) (by decide) (by decide)
    (by decide)

/-- C9: every article either harvester emits carries a `content` entry
holding a string — extracted or API-provided text, or a diagnostic
placeholder — never absent: for all oracles, every element of
`search_direct_rss_feeds` and of `search_news_api` has a present
`content` value. -/
theorem harvesters_content_present (parsedate : String → Option PyDatetime)
    (start_date : Int) (feedFetch : String → Except String (List RssItem))
    (htmlFetch : String → FetchResult) (api_key : Option String)
    (apiFetch : String → Except String (List ApiArticle)) (query : String) :
    ((search_direct_rss_feeds parsedate start_date feedFetch htmlFetch).all
        (fun a => (dictLookup a "content").isSome) = true) ∧
      ((search_news_api api_key apiFetch query).all
        (fun a => (dictLookup a "content").isSome) = true) := by
  constructor
  · rw [List.all_eq_true]
    intro a ha
    unfold search_direct_rss_feeds at ha
    obtain ⟨l, hl, hal⟩ := List.mem_flatten.mp ha
    obtain ⟨src, _, rfl⟩ := List.mem_map.mp hl
    cases hff : feedFetch src.2 with
    | error e => rw [hff] at hal; simp at hal
    | ok items =>
      rw [hff] at hal
      obtain ⟨item, _, hsome⟩ := List.mem_filterMap.mp hal
      exact process_rss_item_content _ _ _ _ _ _ hsome
  · cases api_key with
    | none => simp [search_news_api]
    | some k =>
      rw [List.all_eq_true]
      intro d hd
      unfold search_news_api at hd
      cases hf : apiFetch query with
      | error e => rw [hf] at hd; simp at hd
      | ok results =>
        rw [hf] at hd
        obtain ⟨a, _, hsome⟩ := List.mem_filterMap.mp hd
        exact api_article_data_content a d hsome

/-- C3: the aggregator concatenates the RSS harvest before the API
results and deduplicates with first occurrence winning: the
deduplicated RSS harvest is a prefix of the output (the feed version of
any shared URL is retained); dropping from the API results every
article whose URL already occurs in the RSS harvest leaves the output
unchanged (the API duplicates are dropped); and in the end-to-end
scenario — one feed source with 2 matching items plus one API keyword
returning 1 item sharing a URL with the first feed item — the output is
exactly the 2 feed articles. -/
theorem scrape_all_news_feed_precedence (parsedate : String → Option PyDatetime)
    (start_date : Int) (feedFetch : String → Except String (List RssItem))
    (htmlFetch : String → FetchResult) (api_key : Option String)
    (apiFetch : String → Except String (List ApiArticle)) :
    (∃ rest,
        scrape_all_news parsedate start_date feedFetch htmlFetch api_key apiFetch =
          remove_duplicates
            (search_direct_rss_feeds parsedate start_date feedFetch htmlFetch) ++ rest) ∧
      (scrape_all_news parsedate start_date feedFetch htmlFetch api_key apiFetch =
        remove_duplicates
          (search_direct_rss_feeds parsedate start_date feedFetch htmlFetch ++
            ((api_keywords.map (search_news_api api_key apiFetch)).flatten.filter
              (fun b =>
                !(((search_direct_rss_feeds parsedate start_date feedFetch
                      htmlFetch).map (fun a => dictGet a "url" "")).contains
                    (dictGet b "url" "")))))) ∧
      scrape_all_news scenarioParsedate 0 scenarioFeedFetch scenarioHtmlFetch
          (some "key") scenarioApiFetch =
        [scenarioFeedArticle1, scenarioFeedArticle2] := by
  have hsub : ∀ u ∈ (search_direct_rss_feeds parsedate start_date feedFetch
      htmlFetch).map (fun a => dictGet a "url" ""),
      u ∈ seenAfter [] (search_direct_rss_feeds parsedate start_date feedFetch
        htmlFetch) := by
    intro u hu
    exact (mem_seenAfter _ [] u).mpr (Or.inr hu)
  refine ⟨⟨removeDupsAux
      (seenAfter [] (search_direct_rss_feeds parsedate start_date feedFetch htmlFetch))
      ((api_keywords.map (search_news_api api_key apiFetch)).flatten), ?_⟩, ?_, ?_⟩
  · rw [scrape_all_news, remove_duplicates, removeDupsAux_append]
    rfl
  · rw [scrape_all_news, remove_duplicates, remove_duplicates,
      removeDupsAux_append, removeDupsAux_append,
      removeDupsAux_drop_seen _ _ _ hsub]
  · decide

end QuickCommerceNewsScraper
